import Mathlib

/-!
Shallow embedding of `src/creational/Builder.cpp`, which contains three
variants of the Builder pattern applied to a `Pizza` product:

* a classic fluent builder (C++17, lines 29-55), embedded in namespace `C17`;
* a constexpr-friendly builder (C++20, lines 83-116), embedded in `C20`;
* a deducing-this builder (C++23, lines 144-183), embedded in `C23`.

`std::string` / `std::string_view` fields become `String`,
`std::vector<...>` becomes `List String`, `int` becomes `Int`.
-/

namespace C17

/-- `Pizza::Specs` of the C++17 variant: `crust` is a default-constructed
(empty) `std::string`, `size_cm` has default member initializer `32`,
`toppings` a default-constructed (empty) vector. -/
structure Specs where
  crust : String := ""
  size_cm : Int := 32
  toppings : List String := []
deriving DecidableEq

/-- The C++17 `Pizza`: holds one `Specs` value (`specs_`). -/
structure Pizza where
  specs_ : Specs
deriving DecidableEq

/-- `const Specs& specs() const { return specs_; }` — the read-only view. -/
def Pizza.specs (p : Pizza) : Specs := p.specs_

/-- `Pizza::Builder` of the C++17 variant: a default-constructed `Specs`. -/
structure Builder where
  specs_ : Specs := {}
deriving DecidableEq

/-- `Builder& crust(std::string c) { specs_.crust = std::move(c); return *this; }` -/
def Builder.crust (b : Builder) (c : String) : Builder :=
  { b with specs_ := { b.specs_ with crust := c } }

/-- `Builder& size(int cm) { specs_.size_cm = cm; return *this; }` -/
def Builder.size (b : Builder) (cm : Int) : Builder :=
  { b with specs_ := { b.specs_ with size_cm := cm } }

/-- `Builder& addTopping(std::string t) { specs_.toppings.push_back(std::move(t)); return *this; }` -/
def Builder.addTopping (b : Builder) (t : String) : Builder :=
  { b with specs_ := { b.specs_ with toppings := b.specs_.toppings ++ [t] } }

/-- `Pizza build() const { return Pizza{specs_}; }` — no validation; the
private `Pizza(const Specs&)` constructor copy-initializes `specs_`. -/
def Builder.build (b : Builder) : Pizza := ⟨b.specs_⟩

end C17

namespace C20

/-- `Pizza::Specs` of the C++20 variant (fields as in the C++17 one, with
`std::string_view` in place of `std::string`). -/
structure Specs where
  crust : String := ""
  size_cm : Int := 32
  toppings : List String := []
deriving DecidableEq

/-- The C++20 `Pizza`. -/
structure Pizza where
  specs_ : Specs
deriving DecidableEq

/-- `constexpr const Specs& specs() const { return specs_; }` -/
def Pizza.specs (p : Pizza) : Specs := p.specs_

/-- Embedding of
`template<int Min, int Max> concept InRange = requires(int v) { (v >= Min && v <= Max); };`.
A requires-expression whose body is a plain expression statement only checks
that the expression is well-formed, never that it evaluates to true; the
comparison `v >= Min && v <= Max` is a well-formed boolean expression for
every `int v` and all bounds, so the concept is satisfied unconditionally.
We render "the expression is well-formed and has a boolean value" as the
(always inhabited) proposition below. -/
def InRange (Min Max : Int) : Prop :=
  ∀ v : Int, ∃ b : Bool, b = decide (Min ≤ v ∧ v ≤ Max)

/-- `Pizza::Builder` of the C++20 variant. -/
structure Builder where
  specs_ : Specs := {}
deriving DecidableEq

/-- `constexpr Builder& crust(std::string_view c) { specs_.crust = c; return *this; }` -/
def Builder.crust (b : Builder) (c : String) : Builder :=
  { b with specs_ := { b.specs_ with crust := c } }

/-- `template<InRange<20, 60> Size> constexpr Builder& size(Size cm) { specs_.size_cm = cm; return *this; }`.
The `InRange<20, 60>` type-constraint on `Size` is vacuous (see `InRange`),
so the body stores `cm` unconditionally for every integer argument. -/
def Builder.size (b : Builder) (cm : Int) : Builder :=
  { b with specs_ := { b.specs_ with size_cm := cm } }

/-- `constexpr Builder& toppings(R&& range) { specs_.toppings.assign(begin(range), end(range)); return *this; }` —
`assign` replaces the vector's entire contents with the given range. -/
def Builder.toppings (b : Builder) (range : List String) : Builder :=
  { b with specs_ := { b.specs_ with toppings := range } }

/-- `constexpr Pizza build() const { return Pizza{specs_}; }` — no validation. -/
def Builder.build (b : Builder) : Pizza := ⟨b.specs_⟩

end C20

namespace C23

/-- `Pizza::Specs` of the C++23 variant (same shape as the other two). -/
structure Specs where
  crust : String := ""
  size_cm : Int := 32
  toppings : List String := []
deriving DecidableEq

/-- The C++23 `Pizza`. -/
structure Pizza where
  specs_ : Specs
deriving DecidableEq

/-- `const Specs& specs() const { return specs_; }` -/
def Pizza.specs (p : Pizza) : Specs := p.specs_

/-- `Pizza::Builder` of the C++23 variant. -/
structure Builder where
  specs_ : Specs := {}
deriving DecidableEq

/-- `auto crust(this Builder self, std::string_view c) { self.specs_.crust = c; return self; }` —
`self` is taken by value, mutated locally and returned; the invoked-on
builder is untouched, which the pure function type captures directly. -/
def Builder.crust (self : Builder) (c : String) : Builder :=
  { self with specs_ := { self.specs_ with crust := c } }

/-- `auto size(this Builder self, int cm) { self.specs_.size_cm = cm; return self; }` -/
def Builder.size (self : Builder) (cm : Int) : Builder :=
  { self with specs_ := { self.specs_ with size_cm := cm } }

/-- `auto add(this Builder self, std::string_view topping) { self.specs_.toppings.push_back(topping); return self; }` -/
def Builder.add (self : Builder) (topping : String) : Builder :=
  { self with specs_ := { self.specs_ with toppings := self.specs_.toppings ++ [topping] } }

/-- `consteval Pizza build(this const Builder self) { if (self.specs_.crust.empty()) throw "Crust type required!"; return Pizza{self.specs_}; }` —
`empty()` tests whether the crust is the empty string, and the thrown
string literal is rendered as an `Except.error`. -/
def Builder.build (self : Builder) : Except String Pizza :=
  if self.specs_.crust = "" then Except.error "Crust type required!"
  else Except.ok ⟨self.specs_⟩

end C23

/-!
Machinery for reasoning about whole configuration chains: a `ConfigOp` is
one call of the fluent chain, using the per-call operations shared by the
C++17 and C++23 builders (set crust, set size, append one topping).
-/

/-- One configuration call of a fluent chain. -/
inductive ConfigOp where
  | setCrust (c : String)
  | setSize (cm : Int)
  | addTop (t : String)
deriving DecidableEq

/-- The argument of the last crust-setting call of the sequence, or the
starting value `d` when none occurs (spec wording: "exactly the last value
set for that field; fields never set retain their defaults"). -/
def crustAfter (d : String) : List ConfigOp → String
  | [] => d
  | ConfigOp.setCrust c :: rest => crustAfter c rest
  | ConfigOp.setSize _ :: rest => crustAfter d rest
  | ConfigOp.addTop _ :: rest => crustAfter d rest

/-- The argument of the last size-setting call, or the starting value. -/
def sizeAfter (d : Int) : List ConfigOp → Int
  | [] => d
  | ConfigOp.setCrust _ :: rest => sizeAfter d rest
  | ConfigOp.setSize cm :: rest => sizeAfter cm rest
  | ConfigOp.addTop _ :: rest => sizeAfter d rest

/-- The toppings accumulated by the sequence on top of the starting list
`acc`, in call order. -/
def topsAfter (acc : List String) : List ConfigOp → List String
  | [] => acc
  | ConfigOp.setCrust _ :: rest => topsAfter acc rest
  | ConfigOp.setSize _ :: rest => topsAfter acc rest
  | ConfigOp.addTop t :: rest => topsAfter (acc ++ [t]) rest

namespace C17

/-- Dispatch one configuration call to the C++17 builder. -/
def Builder.apply (b : Builder) : ConfigOp → Builder
  | ConfigOp.setCrust c => b.crust c
  | ConfigOp.setSize cm => b.size cm
  | ConfigOp.addTop t => b.addTopping t

/-- Run a whole chain of configuration calls on the C++17 builder. -/
def Builder.applyAll (b : Builder) (ops : List ConfigOp) : Builder :=
  ops.foldl Builder.apply b

/-- Explicit-storage model of the copy performed by `build()`:
`return Pizza{specs_}` invokes the private `Pizza(const Specs& s) : specs_{s}`,
which copy-initializes a fresh `Specs` (deep-copying the `toppings` vector).
A `Store` maps abstract addresses to `Specs` cells. -/
structure Store where
  next : Nat
  mem : Nat → Option Specs

/-- `build()` with the copy made explicit: allocate a fresh cell holding a
copy of the builder's accumulated specs and hand back its address. -/
def buildAt (st : Store) (b : Builder) : Store × Nat :=
  ({ next := st.next + 1,
     mem := fun i => if i = st.next then some b.specs_ else st.mem i },
   st.next)

/-- Read the specs stored at an address. -/
def Store.read (st : Store) (i : Nat) : Option Specs := st.mem i

/-- Overwrite the specs stored at an address (models mutating one product's
backing store, "if exposed for testing"). -/
def Store.write (st : Store) (i : Nat) (s : Specs) : Store :=
  { st with mem := fun j => if j = i then some s else st.mem j }

end C17

namespace C23

/-- Dispatch one configuration call to the C++23 builder. -/
def Builder.apply (b : Builder) : ConfigOp → Builder
  | ConfigOp.setCrust c => b.crust c
  | ConfigOp.setSize cm => b.size cm
  | ConfigOp.addTop t => b.add t

/-- Run a whole chain of configuration calls on the C++23 builder. -/
def Builder.applyAll (b : Builder) (ops : List ConfigOp) : Builder :=
  ops.foldl Builder.apply b

/-- An event in a two-caller scenario: which of the two callers performs
the next configuration call, on its own builder value. -/
inductive CallerOp where
  | first (op : ConfigOp)
  | second (op : ConfigOp)
deriving DecidableEq

/-- One step of the two-caller scenario: each caller rebinds only its own
builder variable to the value returned by its call (the C++23 operations
take `self` by value, so the other caller's value cannot be touched). -/
def stepPair (p : Builder × Builder) : CallerOp → Builder × Builder
  | CallerOp.first op => (p.1.apply op, p.2)
  | CallerOp.second op => (p.1, p.2.apply op)

/-- Run an arbitrary interleaving of the two callers' calls. -/
def runPair (p : Builder × Builder) (tr : List CallerOp) : Builder × Builder :=
  tr.foldl stepPair p

/-- The subsequence of calls made by the first caller. -/
def firstOps : List CallerOp → List ConfigOp
  | [] => []
  | CallerOp.first op :: rest => op :: firstOps rest
  | CallerOp.second _ :: rest => firstOps rest

/-- The subsequence of calls made by the second caller. -/
def secondOps : List CallerOp → List ConfigOp
  | [] => []
  | CallerOp.first _ :: rest => secondOps rest
  | CallerOp.second op :: rest => op :: secondOps rest

end C23

/-!
Helper lemmas: characterization of whole configuration chains.
-/

/-- Running a chain on the C++17 builder leaves exactly the last-set crust,
the last-set size and the in-order accumulated toppings. -/
theorem c17_applyAll_specs (ops : List ConfigOp) : ∀ b : C17.Builder,
    (b.applyAll ops).specs_ =
      { crust := crustAfter b.specs_.crust ops,
        size_cm := sizeAfter b.specs_.size_cm ops,
        toppings := topsAfter b.specs_.toppings ops } := by
  induction ops with
  | nil => intro b; rfl
  | cons op rest ih =>
    intro b
    cases op with
    | setCrust c =>
      simpa [C17.Builder.applyAll, C17.Builder.apply, C17.Builder.crust,
        crustAfter, sizeAfter, topsAfter] using ih (b.crust c)
    | setSize cm =>
      simpa [C17.Builder.applyAll, C17.Builder.apply, C17.Builder.size,
        crustAfter, sizeAfter, topsAfter] using ih (b.size cm)
    | addTop t =>
      simpa [C17.Builder.applyAll, C17.Builder.apply, C17.Builder.addTopping,
        crustAfter, sizeAfter, topsAfter] using ih (b.addTopping t)

/-- Running a chain on the C++23 builder leaves exactly the last-set crust,
the last-set size and the in-order accumulated toppings. -/
theorem c23_applyAll_specs (ops : List ConfigOp) : ∀ b : C23.Builder,
    (b.applyAll ops).specs_ =
      { crust := crustAfter b.specs_.crust ops,
        size_cm := sizeAfter b.specs_.size_cm ops,
        toppings := topsAfter b.specs_.toppings ops } := by
  induction ops with
  | nil => intro b; rfl
  | cons op rest ih =>
    intro b
    cases op with
    | setCrust c =>
      simpa [C23.Builder.applyAll, C23.Builder.apply, C23.Builder.crust,
        crustAfter, sizeAfter, topsAfter] using ih (b.crust c)
    | setSize cm =>
      simpa [C23.Builder.applyAll, C23.Builder.apply, C23.Builder.size,
        crustAfter, sizeAfter, topsAfter] using ih (b.size cm)
    | addTop t =>
      simpa [C23.Builder.applyAll, C23.Builder.apply, C23.Builder.add,
        crustAfter, sizeAfter, topsAfter] using ih (b.add t)

/-!
Claim theorems.
-/

/-- C4: the chain `Builder{}.crust("Neapolitan").size(30).addTopping("Tomato").addTopping("Mozzarella").build()`
of the C++17 variant (the `main` usage at lines 58-68) yields a Product
whose view has crust `"Neapolitan"`, size `30` and toppings exactly
`["Tomato", "Mozzarella"]` in that order. -/
theorem c4_example_end_to_end :
    (C17.Builder.build
      ((((C17.Builder.crust {} "Neapolitan").size 30).addTopping
          "Tomato").addTopping "Mozzarella")).specs =
      { crust := "Neapolitan", size_cm := 30, toppings := ["Tomato", "Mozzarella"] } := by
  rfl

/-- C5: appending topping `A` and then topping `B` — via `addTopping` of the
C++17 builder or `add` of the C++23 builder — appends both identifiers in
insertion order from every builder state, so the accumulated topping
sequence ends with `A` immediately followed by `B`; starting from an empty
toppings sequence the built Product's toppings are exactly `[A, B]`.
Duplicates are never removed (the statement holds in particular for `A = B`). -/
theorem c5_add_appends_in_order :
    (∀ (b : C17.Builder) (A B : String),
      ((b.addTopping A).addTopping B).specs_.toppings = b.specs_.toppings ++ [A, B]) ∧
    (∀ (b : C23.Builder) (A B : String),
      ((b.add A).add B).specs_.toppings = b.specs_.toppings ++ [A, B]) ∧
    (∀ A B : String,
      (C17.Builder.build ((C17.Builder.addTopping {} A).addTopping B)).specs.toppings =
        [A, B]) := by
  refine ⟨?_, ?_, ?_⟩
  · intro b A B
    simp [C17.Builder.addTopping]
  · intro b A B
    simp [C23.Builder.add]
  · intro A B
    rfl

/-- C6: the bulk `toppings` operation of the C++20 builder replaces the
entire accumulated toppings sequence with exactly the given sequence,
leaving crust and size untouched; in particular, on a builder whose
accumulated toppings are `["A"]`, setting `["X"]` leaves toppings `["X"]`
only — a full overwrite, never a merge. -/
theorem c6_toppings_full_replace :
    (∀ (b : C20.Builder) (r : List String),
      (b.toppings r).specs_ =
        { crust := b.specs_.crust, size_cm := b.specs_.size_cm, toppings := r }) ∧
    (C20.Builder.toppings
        { specs_ := { crust := "Pan", size_cm := 40, toppings := ["A"] } }
        ["X"]).specs_.toppings = ["X"] := by
  refine ⟨?_, rfl⟩
  intro b r
  rfl

/-- C10: a default-constructed builder holds the specification
crust `""`, size `32`, toppings `[]` in every variant (the default member
initializers of `Pizza::Specs` at lines 31-35, 85-89 and 146-150), and
building without ever calling the size-setting operation yields a Product
whose size is `32`. -/
theorem c10_default_specification :
    ({} : C17.Builder).specs_ = { crust := "", size_cm := 32, toppings := [] } ∧
    ({} : C20.Builder).specs_ = { crust := "", size_cm := 32, toppings := [] } ∧
    ({} : C23.Builder).specs_ = { crust := "", size_cm := 32, toppings := [] } ∧
    (C17.Builder.build {}).specs.size_cm = 32 ∧
    (C20.Builder.build (C20.Builder.crust {} "Pan")).specs.size_cm = 32 ∧
    C23.Builder.build (C23.Builder.crust {} "Roman") =
      Except.ok { specs_ := { crust := "Roman", size_cm := 32, toppings := [] } } := by
  refine ⟨rfl, rfl, rfl, rfl, rfl, ?_⟩
  rfl

/-- C2 (refuting theorem): the `InRange` concept of the C++20 variant holds
for every pair of bounds — its requires-expression only demands that the
comparison `v >= Min && v <= Max` be a well-formed expression, which it
always is — so the size-setting operation never rejects any integer: the
out-of-range value `90` is accepted and ends up in the built Product. -/
theorem c2_inrange_vacuous :
    (∀ Min Max : Int, C20.InRange Min Max) ∧
    (C20.Builder.build ((C20.Builder.crust {} "Pan").size 90)).specs =
      { crust := "Pan", size_cm := 90, toppings := [] } := by
  refine ⟨?_, rfl⟩
  intro Min Max v
  exact ⟨decide (Min ≤ v ∧ v ≤ Max), rfl⟩

/-- C1 counterexample: the claim also covers the C++17 variant's `build`
(line 46), which performs no validation at all — on the empty configuration
sequence (so the crust field was never set and is empty at finalize time),
`build()` does not fail and a Product with empty crust IS produced. -/
theorem c1_counterexample :
    C17.Builder.build (C17.Builder.applyAll {} []) =
      { specs_ := { crust := "", size_cm := 32, toppings := [] } } := by
  rfl

/-- C1 (amended): in the C++23 variant, for every configuration sequence,
`build()` fails — throwing `"Crust type required!"`, the spec's
`MissingRequiredField` error — exactly when the crust is empty at finalize
time (never set, or last set to the empty string), and then no Product is
produced; it succeeds with a Product exactly when the last-set crust is
non-empty. -/
theorem c1_missing_crust_fails (ops : List ConfigOp) :
    ((C23.Builder.applyAll {} ops).build = Except.error "Crust type required!" ↔
      crustAfter "" ops = "") ∧
    ((C23.Builder.applyAll {} ops).build =
        Except.ok { specs_ := (C23.Builder.applyAll {} ops).specs_ } ↔
      crustAfter "" ops ≠ "") := by
  have h23 : (C23.Builder.applyAll {} ops).specs_ =
      { crust := crustAfter "" ops, size_cm := sizeAfter 32 ops,
        toppings := topsAfter [] ops } := c23_applyAll_specs ops {}
  by_cases h0 : crustAfter "" ops = ""
  · simp [C23.Builder.build, h23, h0]
  · simp [C23.Builder.build, h23, h0]

/-- C3: for every configuration sequence whose last-set crust is non-empty
and whose last-set size is in `[20, 60]`, `build()` succeeds (in the C++17
variant it is total; in the C++23 variant it returns a Product rather than
an error) and the resulting Product's view reports exactly the last value
set for each of crust, size and toppings — fields never set retain their
defaults (`crustAfter ""`, `sizeAfter 32`, `topsAfter []`). -/
theorem c3_valid_chain_last_values (ops : List ConfigOp)
    (hcrust : crustAfter "" ops ≠ "")
    (_hlo : 20 ≤ sizeAfter 32 ops) (_hhi : sizeAfter 32 ops ≤ 60) :
    (C17.Builder.build (C17.Builder.applyAll {} ops)).specs =
      { crust := crustAfter "" ops, size_cm := sizeAfter 32 ops,
        toppings := topsAfter [] ops } ∧
    C23.Builder.build (C23.Builder.applyAll {} ops) =
      Except.ok { specs_ :=
        { crust := crustAfter "" ops, size_cm := sizeAfter 32 ops,
          toppings := topsAfter [] ops } } := by
  have h17 : (C17.Builder.applyAll {} ops).specs_ =
      { crust := crustAfter "" ops, size_cm := sizeAfter 32 ops,
        toppings := topsAfter [] ops } := c17_applyAll_specs ops {}
  have h23 : (C23.Builder.applyAll {} ops).specs_ =
      { crust := crustAfter "" ops, size_cm := sizeAfter 32 ops,
        toppings := topsAfter [] ops } := c23_applyAll_specs ops {}
  constructor
  · exact h17
  · simp [C23.Builder.build, h23, hcrust]

/-- Witness for C3: the hypotheses hold and the conclusion evaluates at the
concrete chain `setCrust "Neapolitan"; setSize 30; addTop "Tomato"`. -/
theorem c3_valid_chain_last_values_witness :
    (C17.Builder.build (C17.Builder.applyAll {}
        [ConfigOp.setCrust "Neapolitan", ConfigOp.setSize 30,
         ConfigOp.addTop "Tomato"])).specs =
      { crust := "Neapolitan", size_cm := 30, toppings := ["Tomato"] } ∧
    C23.Builder.build (C23.Builder.applyAll {}
        [ConfigOp.setCrust "Neapolitan", ConfigOp.setSize 30,
         ConfigOp.addTop "Tomato"]) =
      Except.ok { specs_ :=
        { crust := "Neapolitan", size_cm := 30, toppings := ["Tomato"] } } := by
  have h := c3_valid_chain_last_values
      [ConfigOp.setCrust "Neapolitan", ConfigOp.setSize 30, ConfigOp.addTop "Tomato"]
      (by decide) (by decide) (by decide)
  simpa [crustAfter, sizeAfter, topsAfter] using h

/-- C7: building twice from the same builder state allocates two distinct
specification cells with equal content (a snapshot copy of the builder's
accumulated specs each time), and overwriting the cell backing either
Product leaves the other Product's cell unchanged — the two backing stores
are independent, never aliased. -/
theorem c7_double_build_independent (st : C17.Store) (b : C17.Builder) :
    C17.Store.read (C17.buildAt (C17.buildAt st b).1 b).1 (C17.buildAt st b).2 =
      some b.specs_ ∧
    C17.Store.read (C17.buildAt (C17.buildAt st b).1 b).1
      (C17.buildAt (C17.buildAt st b).1 b).2 = some b.specs_ ∧
    (C17.buildAt st b).2 ≠ (C17.buildAt (C17.buildAt st b).1 b).2 ∧
    (∀ s : C17.Specs,
      C17.Store.read
        (C17.Store.write (C17.buildAt (C17.buildAt st b).1 b).1
          (C17.buildAt st b).2 s)
        (C17.buildAt (C17.buildAt st b).1 b).2 = some b.specs_) ∧
    (∀ s : C17.Specs,
      C17.Store.read
        (C17.Store.write (C17.buildAt (C17.buildAt st b).1 b).1
          (C17.buildAt (C17.buildAt st b).1 b).2 s)
        (C17.buildAt st b).2 = some b.specs_) := by
  refine ⟨?_, ?_, ?_, ?_, ?_⟩ <;>
    simp [C17.buildAt, C17.Store.read, C17.Store.write]

/-- C8: the Product's single public operation is the read accessor `specs`,
which returns exactly the specification snapshot the Product was built
from; no mutating operation on Product exists in the embedding (matching
the class, whose only public member is `specs()`); and every Product value
arises from a `build()` call: in the C++17 variant `build` is surjective
(the exhibited builder rebuilds any given Product), and in the C++23
variant a Product is recovered by a successful `build` exactly when its
crust is non-empty — `build` alone decides between the validation error
and a Product wrapping the snapshot. -/
theorem c8_product_only_from_build :
    (∀ b : C17.Builder, (C17.Builder.build b).specs = b.specs_) ∧
    (∀ p : C17.Pizza, C17.Builder.build { specs_ := p.specs } = p) ∧
    (∀ b : C23.Builder,
      C23.Builder.build b = Except.error "Crust type required!" ∨
      C23.Builder.build b = Except.ok { specs_ := b.specs_ }) ∧
    (∀ p : C23.Pizza,
      (C23.Builder.build { specs_ := p.specs } = Except.ok p ↔ ¬ p.specs.crust = "")) := by
  refine ⟨fun _ => rfl, fun _ => rfl, ?_, ?_⟩
  · intro b
    by_cases h : b.specs_.crust = ""
    · exact Or.inl (by simp [C23.Builder.build, h])
    · exact Or.inr (by simp [C23.Builder.build, h])
  · intro p
    by_cases h : p.specs.crust = ""
    · simp [C23.Builder.build, C23.Pizza.specs, h]
    · simp [C23.Builder.build, C23.Pizza.specs, h]

/-- In the two-caller scenario over the C++23 builder, any interleaved
trace leaves each caller holding exactly its own calls applied to the
shared starting snapshot. -/
theorem c23_runPair_split (tr : List C23.CallerOp) :
    ∀ p : C23.Builder × C23.Builder,
      C23.runPair p tr =
        (C23.Builder.applyAll p.1 (C23.firstOps tr),
         C23.Builder.applyAll p.2 (C23.secondOps tr)) := by
  induction tr with
  | nil => intro p; rfl
  | cons e rest ih =>
    intro p
    cases e with
    | first op =>
      simpa [C23.runPair, C23.stepPair, C23.firstOps, C23.secondOps,
        C23.Builder.applyAll] using ih (p.1.apply op, p.2)
    | second op =>
      simpa [C23.runPair, C23.stepPair, C23.firstOps, C23.secondOps,
        C23.Builder.applyAll] using ih (p.1, p.2.apply op)

/-- C9: in the deducing-this (C++23) variant every configuration operation
takes `self` by value and returns the updated copy, so each chained call
produces a new builder snapshot and the builder it was invoked on is left
unchanged. Consequence proved here: if two callers start from the same
builder value and perform their configuration calls in any interleaving,
each caller's final builder equals its own calls applied to the starting
snapshot — neither ever observes the other's subsequent calls. -/
theorem c9_snapshot_no_interference (b : C23.Builder) (tr : List C23.CallerOp) :
    (C23.runPair (b, b) tr).1 = C23.Builder.applyAll b (C23.firstOps tr) ∧
    (C23.runPair (b, b) tr).2 = C23.Builder.applyAll b (C23.secondOps tr) := by
  rw [c23_runPair_split tr (b, b)]
  exact ⟨rfl, rfl⟩
